import Mathlib

/-!
# Session and token lifecycle manager of `CtrlxCore`

A shallow embedding of `lib/CtrlxCore.js`: the session-state manager that
guards the ctrlX Data Layer operations behind bearer-token authentication.

The JavaScript class is callback/promise based, but each public operation
is logically sequential: it consults the external collaborators
(`CtrlxCore._authenticate`, `CtrlxCore._deleteToken`, `CtrlxDatalayer.read`
/ `.write` / `.create` / `.delete`, the JWT decoding primitives and
`Date.now()`) in a fixed order determined by the branch taken. We model
the collaborators as an environment (`Env`): each kind of external call is
a function from the index of the call (how many calls of that kind
happened before) and the arguments to the response the collaborator
delivers to the callback. The `World` threads the environment together
with per-collaborator call counters and an event trace recording every
external call with its arguments, so that theorems can speak about *which*
transport calls were made and with *what* token.

`Date.now()` is modelled as the single value `Env.now`, frozen for the
duration of one public call chain; the spec itself treats the renewal
margin as what makes intra-call clock progress irrelevant.

JavaScript field values (which can be `undefined`, `null`, strings,
numbers) are modelled by `Value`; JS truthiness of such a value by
`jsTruthy`. Errors carry an optional HTTP-ish `status` field, because the
code discriminates with `err.status === 401` (a plain transport `Error`
has no such field, modelled as `status = none`).

The mutually recursive promise chains of `datalayerRead` and friends are
embedded with explicit fuel; `none` means the fuel ran out, which never
happens for the finite environments used in the theorems.
-/

/-- A JavaScript value as far as this module observes one: `undefined`,
`null`, a string, a number, or a boolean. -/
inductive Value where
  | undefined : Value
  | null : Value
  | str : String → Value
  | num : Int → Value
  | bool : Bool → Value
deriving DecidableEq, Repr

/-- JavaScript truthiness of a `Value` (`undefined`, `null`, `""`, `0` and
`false` are falsy). -/
def jsTruthy : Value → Bool
  | Value.undefined => false
  | Value.null => false
  | Value.str s => s ≠ ""
  | Value.num n => n ≠ 0
  | Value.bool b => b

/-- An error value as observed by this module: a message plus the optional
`status` field carried by `CtrlxProblemError` (HTTP status of the device
response). A plain transport `Error` has `status = none`. -/
structure JsErr where
  status : Option Int := none
  msg : String := ""
deriving DecidableEq, Repr

/-- Decoded JWT claims, as consumed by `logIn` (`iat` issued-at and `exp`
expiry, both in seconds). -/
structure Claims where
  iat : Int
  exp : Int
deriving DecidableEq, Repr

/-- The three session states of `CtrlxCore`
(`STATE_LOGGED_OUT = 0`, `STATE_LOGGED_IN = 1`, `STATE_AUTHENTICATING = 2`). -/
inductive SessionState where
  | LOGGED_OUT : SessionState
  | LOGGED_IN : SessionState
  | AUTHENTICATING : SessionState
deriving DecidableEq, Repr

/-- The body of a successful authentication response, as inspected by
`logIn`: the `access_token` and `token_type` fields of the parsed JSON
(either may be missing, i.e. `undefined`, or otherwise falsy). -/
structure AuthData where
  access_token : Value
  token_type : Value
deriving DecidableEq, Repr

/-- Outcome of one `CtrlxCore._authenticate` exchange as delivered to its
callback: a communication error, or parsed response data. -/
inductive AuthResult where
  | err : JsErr → AuthResult
  | ok : AuthData → AuthResult

/-- The object `logIn` resolves with: the response data augmented with the
decoded claims and the computed expiry instant. -/
structure LoginData where
  access_token : Value
  token_type : Value
  token_decoded : Claims
  token_expireTime : Int
deriving DecidableEq, Repr

/-- One external call, with the arguments it was made with. -/
inductive Event where
  | authCall : (hostname username password : String) → (timeout : Int) → Event
  | delCall : (hostname : String) → (tokenType token : Value) → (timeout : Int) → Event
  | readCall : (hostname : String) → (tokenType token : Value) → (path : String) →
      (data : Value) → (type : String) → (timeout : Int) → Event
  | writeCall : (hostname : String) → (tokenType token : Value) → (path : String) →
      (data : Value) → (timeout : Int) → Event
  | createCall : (hostname : String) → (tokenType token : Value) → (path : String) →
      (data : Value) → (timeout : Int) → Event
  | deleteCall : (hostname : String) → (tokenType token : Value) → (path : String) →
      (timeout : Int) → Event
deriving DecidableEq, Repr

/-- The external collaborators. Each transport function maps the index of
the call (count of earlier calls of the same kind) and the call arguments
to the pair handed to the node-style callback: `(err, data)`. `decode`
models the token decoding (`CtrlxCore._parseJwt`, whose primitives `atob`,
`decodeURIComponent` and `JSON.parse` are external): it yields the decoded
claims or the thrown error. `now` models `Date.now()`. -/
structure Env where
  auth : Nat → AuthResult
  del : Nat → Option JsErr
  dlRead : Nat → (hostname : String) → (tokenType token : Value) → (path : String) →
      (data : Value) → (type : String) → (timeout : Int) → Option JsErr × Value
  dlWrite : Nat → (hostname : String) → (tokenType token : Value) → (path : String) →
      (data : Value) → (timeout : Int) → Option JsErr × Value
  dlCreate : Nat → (hostname : String) → (tokenType token : Value) → (path : String) →
      (data : Value) → (timeout : Int) → Option JsErr × Value
  dlDelete : Nat → (hostname : String) → (tokenType token : Value) → (path : String) →
      (timeout : Int) → Option JsErr
  decode : Value → Except JsErr Claims
  now : Int

/-- The environment together with per-collaborator call counters and the
chronological trace of external calls made so far. -/
structure World where
  env : Env
  nAuth : Nat := 0
  nDel : Nat := 0
  nRead : Nat := 0
  nWrite : Nat := 0
  nCreate : Nat := 0
  nDelete : Nat := 0
  events : List Event := []

/-- The instance fields of a `CtrlxCore` object (constructor,
`CtrlxCore.js` lines 95-107). -/
structure CtrlxCore where
  hostname : String
  username : String
  password : String
  token : Value
  tokenType : Value
  token_decoded : Option Claims
  token_expireTime : Int
  state : SessionState
  timeout : Int
  autoReconnect : Bool
deriving Repr

/-- Outcome of one public operation: the world after all external calls,
the object state at settlement of the promise, and the settled value. -/
structure Res (α : Type) where
  w : World
  s : CtrlxCore
  r : Except JsErr α

/-- The constructor `new CtrlxCore(hostname, username, password)`; `now` is the
`Date.now()` of construction. -/
def CtrlxCore.construct (hostname username password : String) (now : Int) : CtrlxCore :=
  { hostname := hostname
    username := username
    password := password
    token := Value.undefined
    tokenType := Value.undefined
    token_decoded := none
    token_expireTime := now
    state := SessionState.LOGGED_OUT
    timeout := -1
    autoReconnect := false }

/-- The field writes shared by every failure path of `logIn` and by
`logOut`: `_token`, `_tokenType`, `_token_decoded` set to `undefined` and
`_state` to `STATE_LOGGED_OUT` (`_token_expireTime` is left as is). -/
def CtrlxCore.invalidate (s : CtrlxCore) : CtrlxCore :=
  { s with token := Value.undefined
           tokenType := Value.undefined
           token_decoded := none
           state := SessionState.LOGGED_OUT }

/-- Getter `get timeout` (line 272). -/
def CtrlxCore.getTimeout (s : CtrlxCore) : Int := s.timeout

/-- Setter `set timeout(newTimeout)` (line 281). -/
def CtrlxCore.setTimeout (s : CtrlxCore) (newTimeout : Int) : CtrlxCore :=
  { s with timeout := newTimeout }

/-- Getter `get autoReconnect` (line 290). -/
def CtrlxCore.getAutoReconnect (s : CtrlxCore) : Bool := s.autoReconnect

/-- Setter `set autoReconnect(newAutoReconnect)` (line 299). -/
def CtrlxCore.setAutoReconnect (s : CtrlxCore) (newAutoReconnect : Bool) : CtrlxCore :=
  { s with autoReconnect := newAutoReconnect }

/-- Method `logOut()` (lines 396-426): calls `_deleteToken` with the current
token material; the callback invalidates the local fields regardless of
the outcome, then rejects with the error or resolves. -/
def CtrlxCore.logOut (w : World) (s : CtrlxCore) : Res Unit :=
  let r := w.env.del w.nDel
  let w := { w with nDel := w.nDel + 1
                    events := w.events ++
                      [Event.delCall s.hostname s.tokenType s.token s.timeout] }
  match r with
  | some e => ⟨w, s.invalidate, Except.error e⟩
  | none => ⟨w, s.invalidate, Except.ok ()⟩

/-- The part of `logIn()` below the already-logged-in check (lines
329-384): set `_state = STATE_AUTHENTICATING`, run `_authenticate`, and in
its callback either invalidate-and-reject (communication error, missing
`access_token`/`token_type` field, decoding error) or store the token
material, decode it, compute the expiry instant and resolve. Note the
source stores `_token`, `_tokenType` and `_state = STATE_LOGGED_IN` before
decoding and re-invalidates them in the `catch` if decoding throws. -/
def CtrlxCore.logInAux (w : World) (s : CtrlxCore) : Res LoginData :=
  let s := { s with state := SessionState.AUTHENTICATING }
  let r := w.env.auth w.nAuth
  let w := { w with nAuth := w.nAuth + 1
                    events := w.events ++
                      [Event.authCall s.hostname s.username s.password s.timeout] }
  match r with
  | AuthResult.err e => ⟨w, s.invalidate, Except.error e⟩
  | AuthResult.ok d =>
    if !jsTruthy d.access_token || !jsTruthy d.token_type then
      ⟨w, s.invalidate,
        Except.error { msg := "Did not receive expected data as authentication response" }⟩
    else
      let s := { s with token := d.access_token
                        tokenType := d.token_type
                        state := SessionState.LOGGED_IN }
      match w.env.decode d.access_token with
      | Except.error e => ⟨w, s.invalidate, Except.error e⟩
      | Except.ok claims =>
        let tokenExpiresInSeconds := claims.exp - claims.iat - 30
        let expireTime := w.env.now + tokenExpiresInSeconds * 1000
        ⟨w, { s with token_decoded := some claims
                     token_expireTime := expireTime },
          Except.ok ⟨d.access_token, d.token_type, claims, expireTime⟩⟩

/-- Method `logIn()` (lines 312-387). When already `LOGGED_IN` or
`AUTHENTICATING` the source first runs `logOut()` (both the fulfilled and
the rejected continuation re-invoke `logIn()`, so the logout outcome is
ignored) and then recurses; since `logOut` always leaves the state
`LOGGED_OUT`, that recursive call necessarily takes the direct path, so
the recursion is unrolled here into a direct `logInAux` call. -/
def CtrlxCore.logIn (w : World) (s : CtrlxCore) : Res LoginData :=
  if s.state = SessionState.LOGGED_IN ∨ s.state = SessionState.AUTHENTICATING then
    let out := CtrlxCore.logOut w s
    CtrlxCore.logInAux out.w out.s
  else
    CtrlxCore.logInAux w s

/-- The usage error of `datalayerRead` (line 448); the source reuses the
same message in `datalayerWrite` (line 513). -/
def notAuthenticatedReadErr : JsErr :=
  { msg := "Failed to read from Data Layer. Not authenticated. Please login first." }

/-- The usage error of `datalayerCreate` (line 604). -/
def notAuthenticatedCreateErr : JsErr :=
  { msg := "Failed to create node on Data Layer. Not authenticated. Please login first." }

/-- The usage error of `datalayerDelete` (line 666). -/
def notAuthenticatedDeleteErr : JsErr :=
  { msg := "Failed to delete node on Data Layer. Not authenticated. Please login first." }

/-- Method `datalayerRead(path, data, type)` (lines 440-493), with explicit fuel
for the two recursive promise chains (`none` = fuel ran out, which cannot
happen in the source). Branches, in source order: reject when not
`LOGGED_IN`; when `Date.now() > _token_expireTime`, `logIn()` then recurse
(a failure of either rejects); otherwise call `CtrlxDatalayer.read`. In
its callback `(err, data)` the parameter `data` SHADOWS the argument
`data`, so the 401/auto-reconnect retry at line 477 passes the value the
transport delivered for the callback's `data` parameter — not the original
request payload — and the `.finally` at line 480 sets
`_state = STATE_LOGGED_IN` after the retry settles, whatever happened. -/
def CtrlxCore.datalayerRead :
    Nat → World → CtrlxCore → String → Value → String → Option (Res Value)
  | 0, _, _, _, _, _ => none
  | fuel + 1, w, s, path, data, type =>
    if s.state ≠ SessionState.LOGGED_IN then
      some ⟨w, s, Except.error notAuthenticatedReadErr⟩
    else if w.env.now > s.token_expireTime then
      let li := CtrlxCore.logIn w s
      match li.r with
      | Except.ok _ => CtrlxCore.datalayerRead fuel li.w li.s path data type
      | Except.error e => some ⟨li.w, li.s, Except.error e⟩
    else
      let resp := w.env.dlRead w.nRead s.hostname s.tokenType s.token path data type s.timeout
      let w := { w with nRead := w.nRead + 1
                        events := w.events ++
                          [Event.readCall s.hostname s.tokenType s.token path data type s.timeout] }
      match resp with
      | (some err, cbData) =>
        if err.status == some 401 && s.autoReconnect then
          let li := CtrlxCore.logIn w s
          match li.r with
          | Except.ok _ =>
            match CtrlxCore.datalayerRead fuel li.w li.s path cbData type with
            | some out => some ⟨out.w, { out.s with state := SessionState.LOGGED_IN }, out.r⟩
            | none => none
          | Except.error e =>
            some ⟨li.w, { li.s with state := SessionState.LOGGED_IN }, Except.error e⟩
        else
          some ⟨w, s, Except.error err⟩
      | (none, cbData) => some ⟨w, s, Except.ok cbData⟩

/-- Method `datalayerWrite(path, data)` (lines 506-555). Same shape as
`datalayerRead`, except the transport callback names its data parameter
`dataReturned`, so the 401 retry at line 540 passes the ORIGINAL `data`
argument. -/
def CtrlxCore.datalayerWrite :
    Nat → World → CtrlxCore → String → Value → Option (Res Value)
  | 0, _, _, _, _ => none
  | fuel + 1, w, s, path, data =>
    if s.state ≠ SessionState.LOGGED_IN then
      some ⟨w, s, Except.error notAuthenticatedReadErr⟩
    else if w.env.now > s.token_expireTime then
      let li := CtrlxCore.logIn w s
      match li.r with
      | Except.ok _ => CtrlxCore.datalayerWrite fuel li.w li.s path data
      | Except.error e => some ⟨li.w, li.s, Except.error e⟩
    else
      let resp := w.env.dlWrite w.nWrite s.hostname s.tokenType s.token path data s.timeout
      let w := { w with nWrite := w.nWrite + 1
                        events := w.events ++
                          [Event.writeCall s.hostname s.tokenType s.token path data s.timeout] }
      match resp with
      | (some err, _) =>
        if err.status == some 401 && s.autoReconnect then
          let li := CtrlxCore.logIn w s
          match li.r with
          | Except.ok _ =>
            match CtrlxCore.datalayerWrite fuel li.w li.s path data with
            | some out => some ⟨out.w, { out.s with state := SessionState.LOGGED_IN }, out.r⟩
            | none => none
          | Except.error e =>
            some ⟨li.w, { li.s with state := SessionState.LOGGED_IN }, Except.error e⟩
        else
          some ⟨w, s, Except.error err⟩
      | (none, dataReturned) => some ⟨w, s, Except.ok dataReturned⟩

/-- Method `datalayerCreate(path, data)` (lines 597-646); the 401 retry passes
the original `data` (callback parameter is `dataReturned`). -/
def CtrlxCore.datalayerCreate :
    Nat → World → CtrlxCore → String → Value → Option (Res Value)
  | 0, _, _, _, _ => none
  | fuel + 1, w, s, path, data =>
    if s.state ≠ SessionState.LOGGED_IN then
      some ⟨w, s, Except.error notAuthenticatedCreateErr⟩
    else if w.env.now > s.token_expireTime then
      let li := CtrlxCore.logIn w s
      match li.r with
      | Except.ok _ => CtrlxCore.datalayerCreate fuel li.w li.s path data
      | Except.error e => some ⟨li.w, li.s, Except.error e⟩
    else
      let resp := w.env.dlCreate w.nCreate s.hostname s.tokenType s.token path data s.timeout
      let w := { w with nCreate := w.nCreate + 1
                        events := w.events ++
                          [Event.createCall s.hostname s.tokenType s.token path data s.timeout] }
      match resp with
      | (some err, _) =>
        if err.status == some 401 && s.autoReconnect then
          let li := CtrlxCore.logIn w s
          match li.r with
          | Except.ok _ =>
            match CtrlxCore.datalayerCreate fuel li.w li.s path data with
            | some out => some ⟨out.w, { out.s with state := SessionState.LOGGED_IN }, out.r⟩
            | none => none
          | Except.error e =>
            some ⟨li.w, { li.s with state := SessionState.LOGGED_IN }, Except.error e⟩
        else
          some ⟨w, s, Except.error err⟩
      | (none, dataReturned) => some ⟨w, s, Except.ok dataReturned⟩

/-- Method `datalayerDelete(path)` (lines 659-707); the transport callback takes
only `(err)` and success resolves with no value. -/
def CtrlxCore.datalayerDelete :
    Nat → World → CtrlxCore → String → Option (Res Unit)
  | 0, _, _, _ => none
  | fuel + 1, w, s, path =>
    if s.state ≠ SessionState.LOGGED_IN then
      some ⟨w, s, Except.error notAuthenticatedDeleteErr⟩
    else if w.env.now > s.token_expireTime then
      let li := CtrlxCore.logIn w s
      match li.r with
      | Except.ok _ => CtrlxCore.datalayerDelete fuel li.w li.s path
      | Except.error e => some ⟨li.w, li.s, Except.error e⟩
    else
      let resp := w.env.dlDelete w.nDelete s.hostname s.tokenType s.token path s.timeout
      let w := { w with nDelete := w.nDelete + 1
                        events := w.events ++
                          [Event.deleteCall s.hostname s.tokenType s.token path s.timeout] }
      match resp with
      | some err =>
        if err.status == some 401 && s.autoReconnect then
          let li := CtrlxCore.logIn w s
          match li.r with
          | Except.ok _ =>
            match CtrlxCore.datalayerDelete fuel li.w li.s path with
            | some out => some ⟨out.w, { out.s with state := SessionState.LOGGED_IN }, out.r⟩
            | none => none
          | Except.error e =>
            some ⟨li.w, { li.s with state := SessionState.LOGGED_IN }, Except.error e⟩
        else
          some ⟨w, s, Except.error err⟩
      | none => some ⟨w, s, Except.ok ()⟩

/-- Method `datalayerReadMetadata(path)` (lines 567-569):
`return this.datalayerRead(path, undefined, 'metadata')`. -/
def CtrlxCore.datalayerReadMetadata (fuel : Nat) (w : World) (s : CtrlxCore)
    (path : String) : Option (Res Value) :=
  CtrlxCore.datalayerRead fuel w s path Value.undefined "metadata"

/-- Method `datalayerBrowse(path)` (lines 581-583):
`return this.datalayerRead(path, undefined, 'browse')`. -/
def CtrlxCore.datalayerBrowse (fuel : Nat) (w : World) (s : CtrlxCore)
    (path : String) : Option (Res Value) :=
  CtrlxCore.datalayerRead fuel w s path Value.undefined "browse"

/-! ## Derived notions -/

/-- The three token fields are cleared (`undefined`), as on every failure
or logout path. -/
def CtrlxCore.tokenFieldsCleared (s : CtrlxCore) : Prop :=
  s.token = Value.undefined ∧ s.tokenType = Value.undefined ∧ s.token_decoded = none

/-- The three token fields are simultaneously present or simultaneously
absent. -/
def CtrlxCore.tokenConsistent (s : CtrlxCore) : Prop :=
  (s.token = Value.undefined ∧ s.tokenType = Value.undefined ∧ s.token_decoded = none) ∨
  (s.token ≠ Value.undefined ∧ s.tokenType ≠ Value.undefined ∧ s.token_decoded ≠ none)

/-- States observable at the boundary of the public operations: the
constructor, `logIn`, `logOut`, the two property setters, and the four
data operations (`datalayerReadMetadata` and `datalayerBrowse` are
definitionally `datalayerRead` calls, so the `read` rule covers them).
Each public call runs under an arbitrary fresh `World`, i.e. arbitrary
collaborator behaviour and an arbitrary `Date.now()`. -/
inductive Reachable : CtrlxCore → Prop where
  | construct : ∀ hostname username password now,
      Reachable (CtrlxCore.construct hostname username password now)
  | logIn : ∀ w s, Reachable s → Reachable (CtrlxCore.logIn w s).s
  | logOut : ∀ w s, Reachable s → Reachable (CtrlxCore.logOut w s).s
  | setTimeout : ∀ s v, Reachable s → Reachable (s.setTimeout v)
  | setAutoReconnect : ∀ s b, Reachable s → Reachable (s.setAutoReconnect b)
  | read : ∀ fuel w s path data type out, Reachable s →
      CtrlxCore.datalayerRead fuel w s path data type = some out → Reachable out.s
  | write : ∀ fuel w s path data out, Reachable s →
      CtrlxCore.datalayerWrite fuel w s path data = some out → Reachable out.s
  | create : ∀ fuel w s path data out, Reachable s →
      CtrlxCore.datalayerCreate fuel w s path data = some out → Reachable out.s
  | delete : ∀ fuel w s path out, Reachable s →
      CtrlxCore.datalayerDelete fuel w s path = some out → Reachable out.s

/-- The `data` argument of each transport read call in a trace, in order. -/
def readDataArgs (es : List Event) : List Value :=
  es.filterMap fun e =>
    match e with
    | Event.readCall _ _ _ _ data _ _ => some data
    | _ => none

/-- The `data` argument of each transport write call in a trace, in order. -/
def writeDataArgs (es : List Event) : List Value :=
  es.filterMap fun e =>
    match e with
    | Event.writeCall _ _ _ _ data _ => some data
    | _ => none

/-- The `token` argument of each transport read call in a trace, in order. -/
def readTokenArgs (es : List Event) : List Value :=
  es.filterMap fun e =>
    match e with
    | Event.readCall _ _ token _ _ _ _ => some token
    | _ => none

/-! ## C4: logOut always clears local state -/

/-- C4: every `logOut()` call, from any state, clears `_token`,
`_tokenType` and `_token_decoded` and sets `_state = STATE_LOGGED_OUT`,
regardless of the remote revocation outcome; it resolves when the remote
call succeeds and rejects with the remote error otherwise. -/
theorem logOut_always_clears (w : World) (s : CtrlxCore) :
    (CtrlxCore.logOut w s).s.token = Value.undefined ∧
    (CtrlxCore.logOut w s).s.tokenType = Value.undefined ∧
    (CtrlxCore.logOut w s).s.token_decoded = none ∧
    (CtrlxCore.logOut w s).s.state = SessionState.LOGGED_OUT ∧
    (CtrlxCore.logOut w s).r = (match w.env.del w.nDel with
      | some e => Except.error e
      | none => Except.ok ()) := by
  unfold CtrlxCore.logOut
  cases h : w.env.del w.nDel <;> simp [h, CtrlxCore.invalidate]

/-! ## C9: metadata and browse are read with a kind discriminator -/

/-- C9: `datalayerReadMetadata(path)` is `datalayerRead(path, undefined,
'metadata')` and `datalayerBrowse(path)` is `datalayerRead(path,
undefined, 'browse')`, for every path and in every state. -/
theorem metadata_browse_are_read (fuel : Nat) (w : World) (s : CtrlxCore) (path : String) :
    CtrlxCore.datalayerReadMetadata fuel w s path
      = CtrlxCore.datalayerRead fuel w s path Value.undefined "metadata" ∧
    CtrlxCore.datalayerBrowse fuel w s path
      = CtrlxCore.datalayerRead fuel w s path Value.undefined "browse" :=
  ⟨rfl, rfl⟩

/-! ## C10: setters are frame-exact -/

/-- C10: setting `timeout` or `autoReconnect` changes only that one
configuration field — session state, token material and expiry watermark
are untouched — and the corresponding getter returns the value that was
set (any `Int`, including `-1`, for `timeout`). -/
theorem setters_frame_exact (s : CtrlxCore) (v : Int) (b : Bool) :
    (s.setTimeout v).getTimeout = v ∧
    (s.setTimeout v).state = s.state ∧
    (s.setTimeout v).token = s.token ∧
    (s.setTimeout v).tokenType = s.tokenType ∧
    (s.setTimeout v).token_decoded = s.token_decoded ∧
    (s.setTimeout v).token_expireTime = s.token_expireTime ∧
    (s.setTimeout v).autoReconnect = s.autoReconnect ∧
    (s.setAutoReconnect b).getAutoReconnect = b ∧
    (s.setAutoReconnect b).state = s.state ∧
    (s.setAutoReconnect b).token = s.token ∧
    (s.setAutoReconnect b).tokenType = s.tokenType ∧
    (s.setAutoReconnect b).token_decoded = s.token_decoded ∧
    (s.setAutoReconnect b).token_expireTime = s.token_expireTime ∧
    (s.setAutoReconnect b).timeout = s.timeout := by
  simp [CtrlxCore.setTimeout, CtrlxCore.getTimeout,
    CtrlxCore.setAutoReconnect, CtrlxCore.getAutoReconnect]

/-! ## C8: usage error when not logged in -/

/-- C8: every data operation invoked while the state is not `LOGGED_IN`
rejects with its "not authenticated" usage error, makes no transport call
and no login (the world, and hence the trace, is unchanged), and leaves
the object state unchanged. -/
theorem not_logged_in_rejects (fuel : Nat) (w : World) (s : CtrlxCore)
    (path : String) (data : Value) (type : String)
    (h : s.state ≠ SessionState.LOGGED_IN) :
    CtrlxCore.datalayerRead (fuel + 1) w s path data type
      = some ⟨w, s, Except.error notAuthenticatedReadErr⟩ ∧
    CtrlxCore.datalayerWrite (fuel + 1) w s path data
      = some ⟨w, s, Except.error notAuthenticatedReadErr⟩ ∧
    CtrlxCore.datalayerCreate (fuel + 1) w s path data
      = some ⟨w, s, Except.error notAuthenticatedCreateErr⟩ ∧
    CtrlxCore.datalayerDelete (fuel + 1) w s path
      = some ⟨w, s, Except.error notAuthenticatedDeleteErr⟩ ∧
    CtrlxCore.datalayerReadMetadata (fuel + 1) w s path
      = some ⟨w, s, Except.error notAuthenticatedReadErr⟩ ∧
    CtrlxCore.datalayerBrowse (fuel + 1) w s path
      = some ⟨w, s, Except.error notAuthenticatedReadErr⟩ := by
  refine ⟨?_, ?_, ?_, ?_, ?_, ?_⟩ <;>
    simp [CtrlxCore.datalayerRead, CtrlxCore.datalayerWrite, CtrlxCore.datalayerCreate,
      CtrlxCore.datalayerDelete, CtrlxCore.datalayerReadMetadata, CtrlxCore.datalayerBrowse, h]

/-- A trivial environment for concrete instantiations. -/
def trivEnv : Env :=
  { auth := fun _ => AuthResult.err { msg := "down" }
    del := fun _ => none
    dlRead := fun _ _ _ _ _ _ _ _ => (none, Value.undefined)
    dlWrite := fun _ _ _ _ _ _ _ => (none, Value.undefined)
    dlCreate := fun _ _ _ _ _ _ _ => (none, Value.undefined)
    dlDelete := fun _ _ _ _ _ _ => none
    decode := fun _ => Except.ok ⟨0, 3600⟩
    now := 0 }

/-- Witness for C8: a freshly constructed (logged-out) object rejects a
read with the usage error, leaving world and state untouched. -/
theorem not_logged_in_rejects_witness :
    CtrlxCore.datalayerRead 1 { env := trivEnv } (CtrlxCore.construct "h" "u" "p" 0)
        "a/b" Value.undefined "data"
      = some ⟨{ env := trivEnv }, CtrlxCore.construct "h" "u" "p" 0,
          Except.error notAuthenticatedReadErr⟩ :=
  (not_logged_in_rejects 0 { env := trivEnv } (CtrlxCore.construct "h" "u" "p" 0)
    "a/b" Value.undefined "data" (by decide)).1

/-! ## C7: every logIn failure clears state and rejects -/

/-- The environment/counters of the world returned by `logOut` are those
of the input world (only `nDel` and the trace change). -/
theorem logOut_w_env (w : World) (s : CtrlxCore) :
    (CtrlxCore.logOut w s).w.env = w.env ∧ (CtrlxCore.logOut w s).w.nAuth = w.nAuth := by
  unfold CtrlxCore.logOut
  cases w.env.del w.nDel <;> exact ⟨rfl, rfl⟩

/-- Failure behaviour of the authenticating part of `logIn` (the code
below the already-logged-in check): each of the three failure modes —
communication error, missing `access_token`/`token_type` field, decoding
error — clears the token fields, leaves `LOGGED_OUT`, and rejects with the
corresponding error. -/
theorem logInAux_failure_modes (w : World) (s : CtrlxCore) :
    (∀ e, w.env.auth w.nAuth = AuthResult.err e →
      (CtrlxCore.logInAux w s).s.tokenFieldsCleared ∧
      (CtrlxCore.logInAux w s).s.state = SessionState.LOGGED_OUT ∧
      (CtrlxCore.logInAux w s).r = Except.error e) ∧
    (∀ d, w.env.auth w.nAuth = AuthResult.ok d →
      (!jsTruthy d.access_token || !jsTruthy d.token_type) = true →
      (CtrlxCore.logInAux w s).s.tokenFieldsCleared ∧
      (CtrlxCore.logInAux w s).s.state = SessionState.LOGGED_OUT ∧
      (CtrlxCore.logInAux w s).r = Except.error
        { msg := "Did not receive expected data as authentication response" }) ∧
    (∀ d e, w.env.auth w.nAuth = AuthResult.ok d →
      (!jsTruthy d.access_token || !jsTruthy d.token_type) = false →
      w.env.decode d.access_token = Except.error e →
      (CtrlxCore.logInAux w s).s.tokenFieldsCleared ∧
      (CtrlxCore.logInAux w s).s.state = SessionState.LOGGED_OUT ∧
      (CtrlxCore.logInAux w s).r = Except.error e) := by
  refine ⟨fun e hauth => ?_, fun d hauth ht => ?_, fun d e hauth ht hdec => ?_⟩
  · simp [CtrlxCore.logInAux, hauth, CtrlxCore.invalidate, CtrlxCore.tokenFieldsCleared]
  · simp only [Bool.or_eq_true, Bool.not_eq_true'] at ht
    simp [CtrlxCore.logInAux, hauth, ht, CtrlxCore.invalidate, CtrlxCore.tokenFieldsCleared]
  · simp only [Bool.or_eq_false_iff, Bool.not_eq_false'] at ht
    simp [CtrlxCore.logInAux, hauth, ht.1, ht.2, hdec, CtrlxCore.invalidate,
      CtrlxCore.tokenFieldsCleared]

/-- C7: every failure of `logIn()` — transport/protocol error from the
authentication exchange, a response missing the credential or scheme
field, or an exception while decoding the token — clears all token
fields, leaves the state `LOGGED_OUT`, and rejects with the transport
error, the protocol-violation error, or the decoding error respectively;
this holds from any starting state (a re-login goes through `logOut`
first, which does not consume the authentication exchange). -/
theorem logIn_failure_modes (w : World) (s : CtrlxCore) :
    (∀ e, w.env.auth w.nAuth = AuthResult.err e →
      (CtrlxCore.logIn w s).s.tokenFieldsCleared ∧
      (CtrlxCore.logIn w s).s.state = SessionState.LOGGED_OUT ∧
      (CtrlxCore.logIn w s).r = Except.error e) ∧
    (∀ d, w.env.auth w.nAuth = AuthResult.ok d →
      (!jsTruthy d.access_token || !jsTruthy d.token_type) = true →
      (CtrlxCore.logIn w s).s.tokenFieldsCleared ∧
      (CtrlxCore.logIn w s).s.state = SessionState.LOGGED_OUT ∧
      (CtrlxCore.logIn w s).r = Except.error
        { msg := "Did not receive expected data as authentication response" }) ∧
    (∀ d e, w.env.auth w.nAuth = AuthResult.ok d →
      (!jsTruthy d.access_token || !jsTruthy d.token_type) = false →
      w.env.decode d.access_token = Except.error e →
      (CtrlxCore.logIn w s).s.tokenFieldsCleared ∧
      (CtrlxCore.logIn w s).s.state = SessionState.LOGGED_OUT ∧
      (CtrlxCore.logIn w s).r = Except.error e) := by
  unfold CtrlxCore.logIn
  split
  · obtain ⟨henv, hn⟩ := logOut_w_env w s
    obtain ⟨h1, h2, h3⟩ := logInAux_failure_modes (CtrlxCore.logOut w s).w (CtrlxCore.logOut w s).s
    rw [henv, hn] at h1 h2 h3
    exact ⟨h1, h2, h3⟩
  · exact logInAux_failure_modes w s

/-- Witness for C7: with an authentication collaborator that reports a
communication error, `logIn` on a fresh object leaves the token cleared,
the state `LOGGED_OUT`, and rejects with that error. -/
theorem logIn_failure_modes_witness :
    (CtrlxCore.logIn { env := trivEnv } (CtrlxCore.construct "h" "u" "p" 0)).s.tokenFieldsCleared ∧
    (CtrlxCore.logIn { env := trivEnv } (CtrlxCore.construct "h" "u" "p" 0)).s.state
      = SessionState.LOGGED_OUT ∧
    (CtrlxCore.logIn { env := trivEnv } (CtrlxCore.construct "h" "u" "p" 0)).r
      = Except.error { msg := "down" } :=
  (logIn_failure_modes { env := trivEnv } (CtrlxCore.construct "h" "u" "p" 0)).1
    { msg := "down" } rfl

/-! ## C5: the expiry watermark (corrected) -/

/-- The environment of the C5 counterexample: login happens at
`Date.now() = 5000000` ms while the token claims are
`iat = 1000 s`, `exp = 4600 s`. -/
def c5Env : Env :=
  { trivEnv with
      auth := fun _ => AuthResult.ok ⟨Value.str "tok", Value.str "Bearer"⟩
      decode := fun _ => Except.ok ⟨1000, 4600⟩
      now := 5000000 }

/-- C5 counterexample: the stored watermark is
`Date.now() + (exp - iat - 30) * 1000 = 8570000` ms, while the claim's
formula `issuedAt + (expiresAt - issuedAt) - 30 s` evaluates (in ms) to
`1000 * 1000 + (4600 - 1000) * 1000 - 30 * 1000 = 4570000` — the code
bases the watermark at the login instant, not at `issuedAt`. -/
theorem watermark_claim_counterexample :
    (CtrlxCore.logIn { env := c5Env } (CtrlxCore.construct "h" "u" "p" 0)).s.token_expireTime
      = 8570000 ∧
    (1000 : Int) * 1000 + (4600 - 1000) * 1000 - 30 * 1000 = 4570000 ∧
    (8570000 : Int) ≠ 4570000 :=
  ⟨rfl, by norm_num, by norm_num⟩

/-- C5 amended: on every successful `logIn`, the stored watermark is
`Date.now()`-at-login plus `(exp - iat - 30)` seconds; in particular, when
the login happens exactly at the issued-at instant
(`Date.now() = iat * 1000`), a token with `exp = iat + 3600` yields
`expireAt = (iat + 3570) * 1000`, i.e. issued-at plus 3570 seconds. -/
theorem logIn_watermark (w : World) (s : CtrlxCore) (d : AuthData) (c : Claims)
    (hauth : w.env.auth w.nAuth = AuthResult.ok d)
    (ht : (!jsTruthy d.access_token || !jsTruthy d.token_type) = false)
    (hdec : w.env.decode d.access_token = Except.ok c) :
    (CtrlxCore.logIn w s).s.token_expireTime
      = w.env.now + (c.exp - c.iat - 30) * 1000 ∧
    (w.env.now = c.iat * 1000 → c.exp = c.iat + 3600 →
      (CtrlxCore.logIn w s).s.token_expireTime = (c.iat + 3570) * 1000) := by
  have hmain : ∀ (w1 : World) (s1 : CtrlxCore), w1.env = w.env → w1.nAuth = w.nAuth →
      (CtrlxCore.logInAux w1 s1).s.token_expireTime
        = w.env.now + (c.exp - c.iat - 30) * 1000 := by
    intro w1 s1 henv hn
    have ht2 := ht
    simp only [Bool.or_eq_false_iff, Bool.not_eq_false'] at ht2
    simp [CtrlxCore.logInAux, henv, hn, hauth, ht2.1, ht2.2, hdec]
  have hexpire : (CtrlxCore.logIn w s).s.token_expireTime
      = w.env.now + (c.exp - c.iat - 30) * 1000 := by
    unfold CtrlxCore.logIn
    split
    · obtain ⟨henv, hn⟩ := logOut_w_env w s
      exact hmain (CtrlxCore.logOut w s).w (CtrlxCore.logOut w s).s henv hn
    · exact hmain w s rfl rfl
  refine ⟨hexpire, fun hnow hexp => ?_⟩
  rw [hexpire, hnow, hexp]
  ring

/-- The environment of the C5 witness: login at
`Date.now() = 100000 = iat * 1000` with a 3600-second token. -/
def c5WitnessEnv : Env :=
  { trivEnv with
      auth := fun _ => AuthResult.ok ⟨Value.str "tok", Value.str "Bearer"⟩
      decode := fun _ => Except.ok ⟨100, 3700⟩
      now := 100000 }

/-- Witness for the amended C5: a login at exactly the issued-at instant
of a 3600-second token stores the watermark issued-at + 3570 seconds. -/
theorem logIn_watermark_witness :
    (CtrlxCore.logIn { env := c5WitnessEnv } (CtrlxCore.construct "h" "u" "p" 0)).s.token_expireTime
      = (100 + 3570) * 1000 :=
  (logIn_watermark { env := c5WitnessEnv } (CtrlxCore.construct "h" "u" "p" 0)
    ⟨Value.str "tok", Value.str "Bearer"⟩ ⟨100, 3700⟩ rfl rfl rfl).2 rfl rfl

/-! ## C6: expiry-driven re-login before the transport call -/

/-- Successful `logIn` from a `LOGGED_IN` state, in closed form: the
source first runs `logOut` (one `_deleteToken` call with the old token,
outcome ignored), then authenticates; the new token material and the
watermark `Date.now() + (exp - iat - 30) * 1000` are stored. -/
theorem logIn_success (w : World) (s : CtrlxCore) (d : AuthData) (c : Claims)
    (hauth : w.env.auth w.nAuth = AuthResult.ok d)
    (ht : (!jsTruthy d.access_token || !jsTruthy d.token_type) = false)
    (hdec : w.env.decode d.access_token = Except.ok c)
    (hstate : s.state = SessionState.LOGGED_IN) :
    CtrlxCore.logIn w s =
      ⟨{ w with
          nDel := w.nDel + 1
          nAuth := w.nAuth + 1
          events := w.events ++
            [Event.delCall s.hostname s.tokenType s.token s.timeout,
             Event.authCall s.hostname s.username s.password s.timeout] },
        { s with
          token := d.access_token
          tokenType := d.token_type
          token_decoded := some c
          token_expireTime := w.env.now + (c.exp - c.iat - 30) * 1000
          state := SessionState.LOGGED_IN },
        Except.ok ⟨d.access_token, d.token_type, c,
          w.env.now + (c.exp - c.iat - 30) * 1000⟩⟩ := by
  have ht2 := ht
  simp only [Bool.or_eq_false_iff, Bool.not_eq_false'] at ht2
  unfold CtrlxCore.logIn CtrlxCore.logOut CtrlxCore.logInAux
  cases hdel : w.env.del w.nDel <;>
    simp [hstate, hdel, hauth, ht2.1, ht2.2, hdec, CtrlxCore.invalidate]

/-- Environment of the C6 witness: `Date.now() = 1000`, authentication
yields a fresh token `"newtok"`, and the transport succeeds only when
called with that fresh token. -/
def c6Env : Env :=
  { trivEnv with
      auth := fun _ => AuthResult.ok ⟨Value.str "newtok", Value.str "Bearer"⟩
      decode := fun _ => Except.ok ⟨0, 3600⟩
      dlRead := fun _ _ _ token _ _ _ _ =>
        if token = Value.str "newtok" then (none, Value.num 5)
        else (some { status := some 401, msg := "unauthorized" }, Value.null)
      now := 1000 }

/-- A logged-in state holding a stale token whose watermark (0) is
already past at `Date.now() = 1000`. -/
def sExpired : CtrlxCore :=
  { hostname := "h", username := "u", password := "p"
    token := Value.str "oldtok", tokenType := Value.str "Bearer"
    token_decoded := some ⟨0, 3600⟩, token_expireTime := 0
    state := SessionState.LOGGED_IN, timeout := -1, autoReconnect := false }

/-! ## C2: 401 auto-reconnect retry policy (corrected) -/

/-- The authorization-class device error used in the retry scenarios. -/
def err401 : JsErr := { status := some 401, msg := "unauthorized" }

/-- A logged-in manager with auto-reconnect enabled: token `"tok"`,
watermark `3570000` (not yet reached at `Date.now() = 0`). -/
def sGood : CtrlxCore :=
  { hostname := "h", username := "u", password := "p"
    token := Value.str "tok", tokenType := Value.str "Bearer"
    token_decoded := some ⟨0, 3600⟩, token_expireTime := 3570000
    state := SessionState.LOGGED_IN, timeout := -1, autoReconnect := true }

/-- Environment whose first `k` transport reads fail with a 401 and whose
later reads succeed with `num 5`; authentication always re-issues the same
token `"tok"` at `Date.now() = 0`. -/
def chainEnv (k : Nat) : Env :=
  { trivEnv with
      auth := fun _ => AuthResult.ok ⟨Value.str "tok", Value.str "Bearer"⟩
      decode := fun _ => Except.ok ⟨0, 3600⟩
      dlRead := fun n _ _ _ _ _ _ _ =>
        if n < k then (some err401, Value.null) else (none, Value.num 5) }

/-- One step of `datalayerRead` when logged in, unexpired, and the
transport succeeds: a single transport call with the current token. -/
theorem datalayerRead_success_step (fuel : Nat) (w : World) (s : CtrlxCore)
    (path : String) (data : Value) (type : String) (v : Value)
    (hstate : s.state = SessionState.LOGGED_IN)
    (hfresh : ¬ w.env.now > s.token_expireTime)
    (hresp : w.env.dlRead w.nRead s.hostname s.tokenType s.token path data type s.timeout
      = (none, v)) :
    CtrlxCore.datalayerRead (fuel + 1) w s path data type
      = some ⟨{ w with
          nRead := w.nRead + 1
          events := w.events ++
            [Event.readCall s.hostname s.tokenType s.token path data type s.timeout] },
        s, Except.ok v⟩ := by
  simp [CtrlxCore.datalayerRead, hstate, hfresh, hresp]

/-- One step of `datalayerRead` when logged in, unexpired, and the
transport fails with a 401 while auto-reconnect is on: the call reduces to
`logIn` followed by a full recursive re-invocation that receives the
callback's `data` value (then the `.finally` state re-assertion). -/
theorem datalayerRead_401_step (fuel : Nat) (w : World) (s : CtrlxCore)
    (path : String) (data : Value) (type : String) (e : JsErr) (cbData : Value)
    (hstate : s.state = SessionState.LOGGED_IN)
    (hfresh : ¬ w.env.now > s.token_expireTime)
    (hresp : w.env.dlRead w.nRead s.hostname s.tokenType s.token path data type s.timeout
      = (some e, cbData))
    (h401 : (e.status == some 401 && s.autoReconnect) = true) :
    CtrlxCore.datalayerRead (fuel + 1) w s path data type
      = (let li := CtrlxCore.logIn
            { w with
              nRead := w.nRead + 1
              events := w.events ++
                [Event.readCall s.hostname s.tokenType s.token path data type s.timeout] } s
         match li.r with
         | Except.ok _ =>
           match CtrlxCore.datalayerRead fuel li.w li.s path cbData type with
           | some out => some ⟨out.w, { out.s with state := SessionState.LOGGED_IN }, out.r⟩
           | none => none
         | Except.error e2 =>
           some ⟨li.w, { li.s with state := SessionState.LOGGED_IN }, Except.error e2⟩) := by
  simp [CtrlxCore.datalayerRead, hstate, hfresh, hresp, h401]

/-- In the `chainEnv k` environment, a read starting after `j` transport
calls with `j + r = k` eventually succeeds, performing `r` further logins
and ending with `k + 1` transport reads in total. -/
theorem chainEnv_read_chains (k : Nat) : ∀ (r : Nat) (w : World) (path : String)
    (data : Value) (type : String), w.env = chainEnv k → w.nRead + r = k →
    (CtrlxCore.datalayerRead (r + 1) w sGood path data type).map
        (fun out => (out.r, out.w.nAuth, out.w.nRead))
      = some (Except.ok (Value.num 5), w.nAuth + r, k + 1) := by
  intro r
  induction r with
  | zero =>
    intro w path data type henv hn
    have hfresh : ¬ w.env.now > sGood.token_expireTime := by
      rw [henv]; norm_num [chainEnv, trivEnv, sGood]
    have hresp : w.env.dlRead w.nRead sGood.hostname sGood.tokenType sGood.token
        path data type sGood.timeout = (none, Value.num 5) := by
      rw [henv]
      simp [chainEnv, trivEnv, show ¬ w.nRead < k by omega]
    rw [datalayerRead_success_step 0 w sGood path data type (Value.num 5) rfl hfresh hresp]
    simp
    omega
  | succ r ih =>
    intro w path data type henv hn
    have hlt : w.nRead < k := by omega
    have hfresh : ¬ w.env.now > sGood.token_expireTime := by
      rw [henv]; norm_num [chainEnv, trivEnv, sGood]
    have hresp : w.env.dlRead w.nRead sGood.hostname sGood.tokenType sGood.token
        path data type sGood.timeout = (some err401, Value.null) := by
      rw [henv]
      simp [chainEnv, trivEnv, hlt]
    rw [datalayerRead_401_step (r + 1) w sGood path data type err401 Value.null rfl
      hfresh hresp rfl]
    have henv1 : ({ w with
        nRead := w.nRead + 1
        events := w.events ++
          [Event.readCall sGood.hostname sGood.tokenType sGood.token path data type
            sGood.timeout] } : World).env = chainEnv k := henv
    have hli := logIn_success
      { w with
        nRead := w.nRead + 1
        events := w.events ++
          [Event.readCall sGood.hostname sGood.tokenType sGood.token path data type
            sGood.timeout] } sGood ⟨Value.str "tok", Value.str "Bearer"⟩ ⟨0, 3600⟩
      (by rw [henv1]; rfl) rfl (by rw [henv1]; rfl) rfl
    rw [hli]
    dsimp only
    have hsg : ({ sGood with
        token := Value.str "tok"
        tokenType := Value.str "Bearer"
        token_decoded := some ⟨0, 3600⟩
        token_expireTime := w.env.now + ((3600 : Int) - 0 - 30) * 1000
        state := SessionState.LOGGED_IN } : CtrlxCore) = sGood := by
      rw [henv]
      norm_num [sGood, chainEnv, trivEnv]
    rw [hsg]
    have ihw := ih (World.mk w.env (w.nAuth + 1) (w.nDel + 1) (w.nRead + 1)
        w.nWrite w.nCreate w.nDelete
        ((w.events ++
          [Event.readCall sGood.hostname sGood.tokenType sGood.token path data type
            sGood.timeout]) ++
          [Event.delCall sGood.hostname sGood.tokenType sGood.token sGood.timeout,
           Event.authCall sGood.hostname sGood.username sGood.password sGood.timeout]))
      path Value.null type henv (by show w.nRead + 1 + r = k; omega)
    obtain ⟨out, hout, hf⟩ := Option.map_eq_some'.mp ihw
    rw [hout]
    simp only [Option.map_some']
    simp only [Prod.mk.injEq] at hf
    simp [hf.1, hf.2.1, hf.2.2]
    omega

/-- The run refuting C2 as stated: transport fails with 401 twice, then
succeeds; auto-reconnect is on. -/
def c2Out : Res Value :=
  (CtrlxCore.datalayerRead 3 { env := chainEnv 2 } sGood "a/b" Value.undefined "data").getD
    ⟨{ env := chainEnv 2 }, sGood, Except.error { msg := "fuel" }⟩

/-- C2 counterexample: with auto-reconnect on and a transport that returns
401 twice before succeeding, a single `datalayerRead` call performs TWO
re-login-and-retry cycles (`nAuth = 2`, three transport reads) and
resolves successfully — the re-login-and-retry is not "exactly once", and
the outcome of the first retry (a 401 failure) is not final: retries chain
recursively. -/
theorem reconnect_retry_once_counterexample :
    CtrlxCore.datalayerRead 3 { env := chainEnv 2 } sGood "a/b" Value.undefined "data"
      = some c2Out ∧
    c2Out.r = Except.ok (Value.num 5) ∧
    c2Out.w.nAuth = 2 ∧
    c2Out.w.nRead = 3 :=
  ⟨rfl, rfl, rfl, rfl⟩

/-- C2 amended: a re-login-and-retry happens only when the transport
failure has `status = 401` and `autoReconnect` is true — any other
transport failure of any data operation is terminal, propagates unchanged
and performs no login (first four conjuncts: the final world records
exactly the one transport call and no authentication) — but the retry is a
full recursive re-invocation rather than a single bounded retry: while the
transport keeps answering 401, each cycle performs another login and
another transport call (last conjunct: `k` consecutive 401s yield `k`
logins and `k+1` transport calls before success). -/
theorem reconnect_retry_policy (fuel : Nat) (w : World) (s : CtrlxCore)
    (path : String) (data : Value) (type : String) (e : JsErr) (v : Value)
    (hstate : s.state = SessionState.LOGGED_IN)
    (hfresh : ¬ w.env.now > s.token_expireTime)
    (hno : (e.status == some 401 && s.autoReconnect) = false) :
    (w.env.dlRead w.nRead s.hostname s.tokenType s.token path data type s.timeout
        = (some e, v) →
      CtrlxCore.datalayerRead (fuel + 1) w s path data type
        = some ⟨{ w with
            nRead := w.nRead + 1
            events := w.events ++
              [Event.readCall s.hostname s.tokenType s.token path data type s.timeout] },
          s, Except.error e⟩) ∧
    (w.env.dlWrite w.nWrite s.hostname s.tokenType s.token path data s.timeout
        = (some e, v) →
      CtrlxCore.datalayerWrite (fuel + 1) w s path data
        = some ⟨{ w with
            nWrite := w.nWrite + 1
            events := w.events ++
              [Event.writeCall s.hostname s.tokenType s.token path data s.timeout] },
          s, Except.error e⟩) ∧
    (w.env.dlCreate w.nCreate s.hostname s.tokenType s.token path data s.timeout
        = (some e, v) →
      CtrlxCore.datalayerCreate (fuel + 1) w s path data
        = some ⟨{ w with
            nCreate := w.nCreate + 1
            events := w.events ++
              [Event.createCall s.hostname s.tokenType s.token path data s.timeout] },
          s, Except.error e⟩) ∧
    (w.env.dlDelete w.nDelete s.hostname s.tokenType s.token path s.timeout = some e →
      CtrlxCore.datalayerDelete (fuel + 1) w s path
        = some ⟨{ w with
            nDelete := w.nDelete + 1
            events := w.events ++
              [Event.deleteCall s.hostname s.tokenType s.token path s.timeout] },
          s, Except.error e⟩) ∧
    (∀ (k : Nat) (p t : String) (dInit : Value),
      (CtrlxCore.datalayerRead (k + 1) { env := chainEnv k } sGood p dInit t).map
          (fun out => (out.r, out.w.nAuth, out.w.nRead))
        = some (Except.ok (Value.num 5), k, k + 1)) := by
  refine ⟨fun hresp => ?_, fun hresp => ?_, fun hresp => ?_, fun hresp => ?_,
    fun k p t dInit => ?_⟩
  · simp [CtrlxCore.datalayerRead, hstate, hfresh, hresp, hno]
  · simp [CtrlxCore.datalayerWrite, hstate, hfresh, hresp, hno]
  · simp [CtrlxCore.datalayerCreate, hstate, hfresh, hresp, hno]
  · simp [CtrlxCore.datalayerDelete, hstate, hfresh, hresp, hno]
  · simpa using chainEnv_read_chains k k { env := chainEnv k } p dInit t rfl (by simp)

/-- A transport that always reports a non-authorization device problem
(status 500). -/
def c2TermEnv : Env :=
  { trivEnv with
      dlRead := fun _ _ _ _ _ _ _ _ =>
        (some { status := some 500, msg := "boom" }, Value.null) }

/-- Witness for the amended C2: a 500-class transport failure is terminal
— the call rejects with it after exactly one transport call and no
authentication call. -/
theorem reconnect_retry_policy_witness :
    CtrlxCore.datalayerRead 1 { env := c2TermEnv } sGood "a/b" Value.undefined "data"
      = some ⟨{ env := c2TermEnv
                nRead := 1
                events := [Event.readCall "h" (Value.str "Bearer") (Value.str "tok") "a/b"
                  Value.undefined "data" (-1)] },
          sGood, Except.error { status := some 500, msg := "boom" }⟩ :=
  (reconnect_retry_policy 0 { env := c2TermEnv } sGood "a/b" Value.undefined "data"
    { status := some 500, msg := "boom" } Value.null rfl (by norm_num [c2TermEnv, trivEnv, sGood])
    rfl).1 rfl

/-! ## C3: what the single retry passes to the transport (code bug) -/

/-- Environment for the retry-arguments scenario: the first transport
read and the first transport write fail with a 401 (delivering `null` for
the callback's data parameter, as the transport layer does on error), the
next call of each kind succeeds; authentication re-issues `"tok"`. -/
def c3Env : Env :=
  { trivEnv with
      auth := fun _ => AuthResult.ok ⟨Value.str "tok", Value.str "Bearer"⟩
      decode := fun _ => Except.ok ⟨0, 3600⟩
      dlRead := fun n _ _ _ _ _ _ _ =>
        if n = 0 then (some err401, Value.null) else (none, Value.num 7)
      dlWrite := fun n _ _ _ _ _ _ =>
        if n = 0 then (some err401, Value.null) else (none, Value.num 8) }

/-- The read run at the failing input: payload `"payload"`, one 401, then
success, auto-reconnect on. -/
def c3ReadOut : Res Value :=
  (CtrlxCore.datalayerRead 2 { env := c3Env } sGood "a/b" (Value.str "payload") "data").getD
    ⟨{ env := c3Env }, sGood, Except.error { msg := "fuel" }⟩

/-- The analogous write run with the same payload. -/
def c3WriteOut : Res Value :=
  (CtrlxCore.datalayerWrite 2 { env := c3Env } sGood "a/b" (Value.str "payload")).getD
    ⟨{ env := c3Env }, sGood, Except.error { msg := "fuel" }⟩

/-- C3, evaluated at the failing input: the read retry does succeed after
exactly one extra login (`nAuth = 1`) and one retry (two transport reads),
but the retried transport read carries `data = null` — the value the
transport delivered for the error callback's shadowing `data` parameter —
instead of the original payload `"payload"`; the sibling `datalayerWrite`
(whose callback parameter is named `dataReturned`, so nothing is shadowed)
retries with the original payload, showing the read behaviour is a slip,
not a design choice. -/
theorem retry_shadowed_payload_bug :
    c3ReadOut.r = Except.ok (Value.num 7) ∧
    c3ReadOut.w.nAuth = 1 ∧
    readDataArgs c3ReadOut.w.events = [Value.str "payload", Value.null] ∧
    Value.null ≠ Value.str "payload" ∧
    c3WriteOut.r = Except.ok (Value.num 8) ∧
    writeDataArgs c3WriteOut.w.events = [Value.str "payload", Value.str "payload"] :=
  ⟨rfl, rfl, rfl, by decide, rfl, rfl⟩

/-! ## C1: the all-or-none token-field invariant (corrected) -/

theorem jsTruthy_ne_undefined (v : Value) (h : jsTruthy v = true) : v ≠ Value.undefined := by
  cases v <;> simp_all [jsTruthy]

theorem invalidate_tokenConsistent (s : CtrlxCore) : s.invalidate.tokenConsistent :=
  Or.inl ⟨rfl, rfl, rfl⟩

/-- Token consistency does not depend on the `state` field. -/
theorem tokenConsistent_setState (s : CtrlxCore) (st : SessionState)
    (h : s.tokenConsistent) : ({ s with state := st } : CtrlxCore).tokenConsistent := h

theorem logInAux_tokenConsistent (w : World) (s : CtrlxCore) :
    (CtrlxCore.logInAux w s).s.tokenConsistent := by
  unfold CtrlxCore.logInAux
  cases hauth : w.env.auth w.nAuth with
  | err e => simpa using invalidate_tokenConsistent _
  | ok d =>
    simp only
    split
    · simpa using invalidate_tokenConsistent _
    · rename_i hcond
      rw [Bool.not_eq_true, Bool.or_eq_false_iff, Bool.not_eq_false', Bool.not_eq_false'] at hcond
      cases hdec : w.env.decode d.access_token with
      | error e => simpa using invalidate_tokenConsistent _
      | ok claims =>
        refine Or.inr ⟨?_, ?_, ?_⟩
        · exact jsTruthy_ne_undefined _ hcond.1
        · exact jsTruthy_ne_undefined _ hcond.2
        · simp
theorem logIn_tokenConsistent (w : World) (s : CtrlxCore) :
    (CtrlxCore.logIn w s).s.tokenConsistent := by
  unfold CtrlxCore.logIn
  split
  · exact logInAux_tokenConsistent _ _
  · exact logInAux_tokenConsistent _ _

theorem logOut_tokenConsistent (w : World) (s : CtrlxCore) :
    (CtrlxCore.logOut w s).s.tokenConsistent := by
  unfold CtrlxCore.logOut
  cases h : w.env.del w.nDel <;> simpa [h] using invalidate_tokenConsistent s

theorem datalayerRead_tokenConsistent : ∀ (fuel : Nat) (w : World) (s : CtrlxCore)
    (path : String) (data : Value) (type : String) (out : Res Value),
    CtrlxCore.datalayerRead fuel w s path data type = some out →
    s.tokenConsistent → out.s.tokenConsistent := by
  intro fuel
  induction fuel with
  | zero =>
    intro w s path data type out h hs
    simp [CtrlxCore.datalayerRead] at h
  | succ fuel ih =>
    intro w s path data type out h hs
    rw [CtrlxCore.datalayerRead] at h
    dsimp only at h
    split at h
    · cases h
      exact hs
    · split at h
      · split at h
        · exact ih _ _ _ _ _ _ h (logIn_tokenConsistent _ _)
        · cases h
          exact logIn_tokenConsistent _ _
      · split at h
        · split at h
          · split at h
            · split at h
              · cases h
                exact tokenConsistent_setState _ _
                  (ih _ _ _ _ _ _ (by assumption) (logIn_tokenConsistent _ _))
              · cases h
            · cases h
              exact tokenConsistent_setState _ _ (logIn_tokenConsistent _ _)
          · cases h
            exact hs
        · cases h
          exact hs

theorem datalayerWrite_tokenConsistent : ∀ (fuel : Nat) (w : World) (s : CtrlxCore)
    (path : String) (data : Value) (out : Res Value),
    CtrlxCore.datalayerWrite fuel w s path data = some out →
    s.tokenConsistent → out.s.tokenConsistent := by
  intro fuel
  induction fuel with
  | zero =>
    intro w s path data out h hs
    simp [CtrlxCore.datalayerWrite] at h
  | succ fuel ih =>
    intro w s path data out h hs
    rw [CtrlxCore.datalayerWrite] at h
    dsimp only at h
    split at h
    · cases h
      exact hs
    · split at h
      · split at h
        · exact ih _ _ _ _ _ h (logIn_tokenConsistent _ _)
        · cases h
          exact logIn_tokenConsistent _ _
      · split at h
        · split at h
          · split at h
            · split at h
              · cases h
                exact tokenConsistent_setState _ _
                  (ih _ _ _ _ _ (by assumption) (logIn_tokenConsistent _ _))
              · cases h
            · cases h
              exact tokenConsistent_setState _ _ (logIn_tokenConsistent _ _)
          · cases h
            exact hs
        · cases h
          exact hs

theorem datalayerCreate_tokenConsistent : ∀ (fuel : Nat) (w : World) (s : CtrlxCore)
    (path : String) (data : Value) (out : Res Value),
    CtrlxCore.datalayerCreate fuel w s path data = some out →
    s.tokenConsistent → out.s.tokenConsistent := by
  intro fuel
  induction fuel with
  | zero =>
    intro w s path data out h hs
    simp [CtrlxCore.datalayerCreate] at h
  | succ fuel ih =>
    intro w s path data out h hs
    rw [CtrlxCore.datalayerCreate] at h
    dsimp only at h
    split at h
    · cases h
      exact hs
    · split at h
      · split at h
        · exact ih _ _ _ _ _ h (logIn_tokenConsistent _ _)
        · cases h
          exact logIn_tokenConsistent _ _
      · split at h
        · split at h
          · split at h
            · split at h
              · cases h
                exact tokenConsistent_setState _ _
                  (ih _ _ _ _ _ (by assumption) (logIn_tokenConsistent _ _))
              · cases h
            · cases h
              exact tokenConsistent_setState _ _ (logIn_tokenConsistent _ _)
          · cases h
            exact hs
        · cases h
          exact hs

theorem datalayerDelete_tokenConsistent : ∀ (fuel : Nat) (w : World) (s : CtrlxCore)
    (path : String) (out : Res Unit),
    CtrlxCore.datalayerDelete fuel w s path = some out →
    s.tokenConsistent → out.s.tokenConsistent := by
  intro fuel
  induction fuel with
  | zero =>
    intro w s path out h hs
    simp [CtrlxCore.datalayerDelete] at h
  | succ fuel ih =>
    intro w s path out h hs
    rw [CtrlxCore.datalayerDelete] at h
    dsimp only at h
    split at h
    · cases h
      exact hs
    · split at h
      · split at h
        · exact ih _ _ _ _ h (logIn_tokenConsistent _ _)
        · cases h
          exact logIn_tokenConsistent _ _
      · split at h
        · split at h
          · split at h
            · split at h
              · cases h
                exact tokenConsistent_setState _ _
                  (ih _ _ _ _ (by assumption) (logIn_tokenConsistent _ _))
              · cases h
            · cases h
              exact tokenConsistent_setState _ _ (logIn_tokenConsistent _ _)
          · cases h
            exact hs
        · cases h
          exact hs

/-- C1 amended: at the boundary of every public operation, the three
token fields are all simultaneously present or all simultaneously absent
(for every reachable state); the further claim that absence implies
`state ≠ LOGGED_IN` does not hold — see the counterexample — because the
`.finally` of a 401-auto-reconnect retry whose nested re-login failed
forces `state = LOGGED_IN` over cleared token fields. -/
theorem reachable_token_consistent (s : CtrlxCore) (h : Reachable s) :
    s.tokenConsistent := by
  induction h with
  | construct hostname username password now => exact Or.inl ⟨rfl, rfl, rfl⟩
  | logIn w s _ _ => exact logIn_tokenConsistent w s
  | logOut w s _ _ => exact logOut_tokenConsistent w s
  | setTimeout s v _ ih => exact ih
  | setAutoReconnect s b _ ih => exact ih
  | read fuel w s path data type out _ heq ih =>
    exact datalayerRead_tokenConsistent fuel w s path data type out heq ih
  | write fuel w s path data out _ heq ih =>
    exact datalayerWrite_tokenConsistent fuel w s path data out heq ih
  | create fuel w s path data out _ heq ih =>
    exact datalayerCreate_tokenConsistent fuel w s path data out heq ih
  | delete fuel w s path out _ heq ih =>
    exact datalayerDelete_tokenConsistent fuel w s path out heq ih

/-- Witness for the amended C1 at a concrete reachable state. -/
theorem reachable_token_consistent_witness :
    (CtrlxCore.construct "h" "u" "p" 0).tokenConsistent :=
  reachable_token_consistent _ (Reachable.construct "h" "u" "p" 0)

/-- Environment of the first step of the C1 counterexample: a successful
login at `Date.now() = 0`. -/
def c1EnvA : Env :=
  { trivEnv with
      auth := fun _ => AuthResult.ok ⟨Value.str "tok", Value.str "Bearer"⟩
      decode := fun _ => Except.ok ⟨0, 3600⟩ }

/-- Environment of the second step: the transport read fails with a 401
and the authentication endpoint is down (`trivEnv.auth` reports an
error). -/
def c1EnvB : Env :=
  { trivEnv with
      dlRead := fun _ _ _ _ _ _ _ _ => (some err401, Value.null) }

/-- The logged-in manager after the first step, with auto-reconnect
switched on. -/
def c1s2 : CtrlxCore :=
  (CtrlxCore.logIn { env := c1EnvA } (CtrlxCore.construct "h" "u" "p" 0)).s.setAutoReconnect true

/-- The outcome of the second step: 401, auto-reconnect, nested re-login
fails, `.finally` re-asserts `LOGGED_IN`. -/
def c1Out : Res Value :=
  (CtrlxCore.datalayerRead 2 { env := c1EnvB } c1s2 "a/b" Value.undefined "data").getD
    ⟨{ env := c1EnvB }, c1s2, Except.ok Value.undefined⟩

/-- C1 counterexample: a reachable boundary state (constructor → `logIn` →
`autoReconnect := true` → `datalayerRead` that hits a 401 whose nested
re-login fails) has all three token fields absent AND
`state = LOGGED_IN` — refuting "their absence implies the state is not
LOGGED_IN". -/
theorem token_invariant_counterexample :
    Reachable c1Out.s ∧
    c1Out.s.state = SessionState.LOGGED_IN ∧
    c1Out.s.token = Value.undefined ∧
    c1Out.s.tokenType = Value.undefined ∧
    c1Out.s.token_decoded = none :=
  ⟨Reachable.read 2 { env := c1EnvB } c1s2 "a/b" Value.undefined "data" c1Out
      (Reachable.setAutoReconnect _ true
        (Reachable.logIn { env := c1EnvA } _ (Reachable.construct "h" "u" "p" 0)))
      rfl,
    rfl, rfl, rfl, rfl⟩

/-! ## C6: expiry-driven re-login before the transport call, for every verb -/

/-- The world returned by the authenticating part of `logIn`: every
branch returns the same world, with the one `_authenticate` call
recorded. -/
theorem logInAux_w (w : World) (s : CtrlxCore) :
    (CtrlxCore.logInAux w s).w
      = { w with
          nAuth := w.nAuth + 1
          events := w.events ++
            [Event.authCall s.hostname s.username s.password s.timeout] } := by
  unfold CtrlxCore.logInAux
  cases hauth : w.env.auth w.nAuth with
  | err e => rfl
  | ok d =>
    dsimp only
    split
    · rfl
    · cases hdec : w.env.decode d.access_token <;> rfl

/-- The trace after `logOut`: exactly one `_deleteToken` call with the
current token material is recorded, whatever the remote outcome. -/
theorem logOut_w_events (w : World) (s : CtrlxCore) :
    (CtrlxCore.logOut w s).w.events
      = w.events ++ [Event.delCall s.hostname s.tokenType s.token s.timeout] := by
  unfold CtrlxCore.logOut
  cases w.env.del w.nDel <;> rfl

/-- `logIn` only appends to the trace. -/
theorem logIn_events_extend (w : World) (s : CtrlxCore) :
    ∃ tail, (CtrlxCore.logIn w s).w.events = w.events ++ tail := by
  unfold CtrlxCore.logIn
  split
  · refine ⟨[Event.delCall s.hostname s.tokenType s.token s.timeout] ++
      [Event.authCall (CtrlxCore.logOut w s).s.hostname (CtrlxCore.logOut w s).s.username
        (CtrlxCore.logOut w s).s.password (CtrlxCore.logOut w s).s.timeout], ?_⟩
    rw [logInAux_w]
    dsimp only
    rw [logOut_w_events, List.append_assoc]
  · refine ⟨[Event.authCall s.hostname s.username s.password s.timeout], ?_⟩
    rw [logInAux_w]

/-- `datalayerRead` only appends to the trace. -/
theorem datalayerRead_events_extend : ∀ (fuel : Nat) (w : World) (s : CtrlxCore)
    (path : String) (data : Value) (type : String) (out : Res Value),
    CtrlxCore.datalayerRead fuel w s path data type = some out →
    ∃ tail, out.w.events = w.events ++ tail := by
  intro fuel
  induction fuel with
  | zero =>
    intro w s path data type out h
    simp [CtrlxCore.datalayerRead] at h
  | succ fuel ih =>
    intro w s path data type out h
    rw [CtrlxCore.datalayerRead] at h
    dsimp only at h
    split at h
    · cases h
      exact ⟨[], by simp⟩
    · split at h
      · split at h
        · obtain ⟨t2, ht2⟩ := ih _ _ _ _ _ _ h
          obtain ⟨t1, ht1⟩ := logIn_events_extend w s
          exact ⟨t1 ++ t2, by rw [ht2, ht1, List.append_assoc]⟩
        · obtain ⟨t1, ht1⟩ := logIn_events_extend w s
          cases h
          exact ⟨t1, ht1⟩
      · split at h
        · split at h
          · split at h
            · split at h
              · obtain ⟨t2, ht2⟩ := ih _ _ _ _ _ _ (by assumption)
                obtain ⟨t1, ht1⟩ := logIn_events_extend
                  { w with
                    nRead := w.nRead + 1
                    events := w.events ++
                      [Event.readCall s.hostname s.tokenType s.token path data type
                        s.timeout] } s
                dsimp only at ht1
                cases h
                exact ⟨[Event.readCall s.hostname s.tokenType s.token path data type s.timeout]
                  ++ t1 ++ t2, by dsimp only; rw [ht2, ht1]; simp⟩
              · cases h
            · obtain ⟨t1, ht1⟩ := logIn_events_extend
                { w with
                  nRead := w.nRead + 1
                  events := w.events ++
                    [Event.readCall s.hostname s.tokenType s.token path data type
                      s.timeout] } s
              dsimp only at ht1
              cases h
              exact ⟨[Event.readCall s.hostname s.tokenType s.token path data type s.timeout]
                ++ t1, by dsimp only; rw [ht1]; simp⟩
          · cases h
            exact ⟨[Event.readCall s.hostname s.tokenType s.token path data type s.timeout],
              by simp⟩
        · cases h
          exact ⟨[Event.readCall s.hostname s.tokenType s.token path data type s.timeout],
            by simp⟩

/-- `datalayerWrite` only appends to the trace. -/
theorem datalayerWrite_events_extend : ∀ (fuel : Nat) (w : World) (s : CtrlxCore)
    (path : String) (data : Value) (out : Res Value),
    CtrlxCore.datalayerWrite fuel w s path data = some out →
    ∃ tail, out.w.events = w.events ++ tail := by
  intro fuel
  induction fuel with
  | zero =>
    intro w s path data out h
    simp [CtrlxCore.datalayerWrite] at h
  | succ fuel ih =>
    intro w s path data out h
    rw [CtrlxCore.datalayerWrite] at h
    dsimp only at h
    split at h
    · cases h
      exact ⟨[], by simp⟩
    · split at h
      · split at h
        · obtain ⟨t2, ht2⟩ := ih _ _ _ _ _ h
          obtain ⟨t1, ht1⟩ := logIn_events_extend w s
          exact ⟨t1 ++ t2, by rw [ht2, ht1, List.append_assoc]⟩
        · obtain ⟨t1, ht1⟩ := logIn_events_extend w s
          cases h
          exact ⟨t1, ht1⟩
      · split at h
        · split at h
          · split at h
            · split at h
              · obtain ⟨t2, ht2⟩ := ih _ _ _ _ _ (by assumption)
                obtain ⟨t1, ht1⟩ := logIn_events_extend
                  { w with
                    nWrite := w.nWrite + 1
                    events := w.events ++
                      [Event.writeCall s.hostname s.tokenType s.token path data s.timeout] } s
                dsimp only at ht1
                cases h
                exact ⟨[Event.writeCall s.hostname s.tokenType s.token path data s.timeout]
                  ++ t1 ++ t2, by dsimp only; rw [ht2, ht1]; simp⟩
              · cases h
            · obtain ⟨t1, ht1⟩ := logIn_events_extend
                { w with
                  nWrite := w.nWrite + 1
                  events := w.events ++
                    [Event.writeCall s.hostname s.tokenType s.token path data s.timeout] } s
              dsimp only at ht1
              cases h
              exact ⟨[Event.writeCall s.hostname s.tokenType s.token path data s.timeout]
                ++ t1, by dsimp only; rw [ht1]; simp⟩
          · cases h
            exact ⟨[Event.writeCall s.hostname s.tokenType s.token path data s.timeout],
              by simp⟩
        · cases h
          exact ⟨[Event.writeCall s.hostname s.tokenType s.token path data s.timeout],
            by simp⟩

/-- `datalayerCreate` only appends to the trace. -/
theorem datalayerCreate_events_extend : ∀ (fuel : Nat) (w : World) (s : CtrlxCore)
    (path : String) (data : Value) (out : Res Value),
    CtrlxCore.datalayerCreate fuel w s path data = some out →
    ∃ tail, out.w.events = w.events ++ tail := by
  intro fuel
  induction fuel with
  | zero =>
    intro w s path data out h
    simp [CtrlxCore.datalayerCreate] at h
  | succ fuel ih =>
    intro w s path data out h
    rw [CtrlxCore.datalayerCreate] at h
    dsimp only at h
    split at h
    · cases h
      exact ⟨[], by simp⟩
    · split at h
      · split at h
        · obtain ⟨t2, ht2⟩ := ih _ _ _ _ _ h
          obtain ⟨t1, ht1⟩ := logIn_events_extend w s
          exact ⟨t1 ++ t2, by rw [ht2, ht1, List.append_assoc]⟩
        · obtain ⟨t1, ht1⟩ := logIn_events_extend w s
          cases h
          exact ⟨t1, ht1⟩
      · split at h
        · split at h
          · split at h
            · split at h
              · obtain ⟨t2, ht2⟩ := ih _ _ _ _ _ (by assumption)
                obtain ⟨t1, ht1⟩ := logIn_events_extend
                  { w with
                    nCreate := w.nCreate + 1
                    events := w.events ++
                      [Event.createCall s.hostname s.tokenType s.token path data s.timeout] } s
                dsimp only at ht1
                cases h
                exact ⟨[Event.createCall s.hostname s.tokenType s.token path data s.timeout]
                  ++ t1 ++ t2, by dsimp only; rw [ht2, ht1]; simp⟩
              · cases h
            · obtain ⟨t1, ht1⟩ := logIn_events_extend
                { w with
                  nCreate := w.nCreate + 1
                  events := w.events ++
                    [Event.createCall s.hostname s.tokenType s.token path data s.timeout] } s
              dsimp only at ht1
              cases h
              exact ⟨[Event.createCall s.hostname s.tokenType s.token path data s.timeout]
                ++ t1, by dsimp only; rw [ht1]; simp⟩
          · cases h
            exact ⟨[Event.createCall s.hostname s.tokenType s.token path data s.timeout],
              by simp⟩
        · cases h
          exact ⟨[Event.createCall s.hostname s.tokenType s.token path data s.timeout],
            by simp⟩

/-- `datalayerDelete` only appends to the trace. -/
theorem datalayerDelete_events_extend : ∀ (fuel : Nat) (w : World) (s : CtrlxCore)
    (path : String) (out : Res Unit),
    CtrlxCore.datalayerDelete fuel w s path = some out →
    ∃ tail, out.w.events = w.events ++ tail := by
  intro fuel
  induction fuel with
  | zero =>
    intro w s path out h
    simp [CtrlxCore.datalayerDelete] at h
  | succ fuel ih =>
    intro w s path out h
    rw [CtrlxCore.datalayerDelete] at h
    dsimp only at h
    split at h
    · cases h
      exact ⟨[], by simp⟩
    · split at h
      · split at h
        · obtain ⟨t2, ht2⟩ := ih _ _ _ _ h
          obtain ⟨t1, ht1⟩ := logIn_events_extend w s
          exact ⟨t1 ++ t2, by rw [ht2, ht1, List.append_assoc]⟩
        · obtain ⟨t1, ht1⟩ := logIn_events_extend w s
          cases h
          exact ⟨t1, ht1⟩
      · split at h
        · split at h
          · split at h
            · split at h
              · obtain ⟨t2, ht2⟩ := ih _ _ _ _ (by assumption)
                obtain ⟨t1, ht1⟩ := logIn_events_extend
                  { w with
                    nDelete := w.nDelete + 1
                    events := w.events ++
                      [Event.deleteCall s.hostname s.tokenType s.token path s.timeout] } s
                dsimp only at ht1
                cases h
                exact ⟨[Event.deleteCall s.hostname s.tokenType s.token path s.timeout]
                  ++ t1 ++ t2, by dsimp only; rw [ht2, ht1]; simp⟩
              · cases h
            · obtain ⟨t1, ht1⟩ := logIn_events_extend
                { w with
                  nDelete := w.nDelete + 1
                  events := w.events ++
                    [Event.deleteCall s.hostname s.tokenType s.token path s.timeout] } s
              dsimp only at ht1
              cases h
              exact ⟨[Event.deleteCall s.hostname s.tokenType s.token path s.timeout]
                ++ t1, by dsimp only; rw [ht1]; simp⟩
          · cases h
            exact ⟨[Event.deleteCall s.hostname s.tokenType s.token path s.timeout],
              by simp⟩
        · cases h
          exact ⟨[Event.deleteCall s.hostname s.tokenType s.token path s.timeout],
            by simp⟩

/-- A `datalayerRead` invoked while logged in and not past the watermark
delegates directly to the transport: whatever the transport answers, the
trace continues with the one `readCall` carrying the current `tokenType`,
`token` and configured `timeout`, with no login before it. -/
theorem datalayerRead_delegates (fuel : Nat) (w : World) (s : CtrlxCore)
    (path : String) (data : Value) (type : String) (out : Res Value)
    (hstate : s.state = SessionState.LOGGED_IN)
    (hfresh : ¬ w.env.now > s.token_expireTime)
    (h : CtrlxCore.datalayerRead (fuel + 1) w s path data type = some out) :
    ∃ tail, out.w.events
      = w.events ++ [Event.readCall s.hostname s.tokenType s.token path data type s.timeout]
        ++ tail := by
  rw [CtrlxCore.datalayerRead] at h
  dsimp only at h
  rw [if_neg (by simp [hstate]), if_neg hfresh] at h
  split at h
  · split at h
    · split at h
      · split at h
        · obtain ⟨t2, ht2⟩ := datalayerRead_events_extend _ _ _ _ _ _ _ (by assumption)
          obtain ⟨t1, ht1⟩ := logIn_events_extend
            { w with
              nRead := w.nRead + 1
              events := w.events ++
                [Event.readCall s.hostname s.tokenType s.token path data type s.timeout] } s
          dsimp only at ht1
          cases h
          exact ⟨t1 ++ t2, by dsimp only; rw [ht2, ht1]; simp⟩
        · cases h
      · obtain ⟨t1, ht1⟩ := logIn_events_extend
          { w with
            nRead := w.nRead + 1
            events := w.events ++
              [Event.readCall s.hostname s.tokenType s.token path data type s.timeout] } s
        dsimp only at ht1
        cases h
        exact ⟨t1, by dsimp only; rw [ht1]⟩
    · cases h
      exact ⟨[], by simp⟩
  · cases h
    exact ⟨[], by simp⟩

/-- A `datalayerRead` invoked while logged in but past the watermark,
under a successful re-login with a non-negative renewal margin: the trace
continues with the logout and authentication calls of the fresh login and
then the transport `readCall` carrying the NEWLY issued token — whatever
the transport answers. -/
theorem datalayerRead_expiry_trace (fuel : Nat) (w : World) (s : CtrlxCore)
    (path : String) (data : Value) (type : String) (out : Res Value)
    (d : AuthData) (c : Claims)
    (hstate : s.state = SessionState.LOGGED_IN)
    (hexp : w.env.now > s.token_expireTime)
    (hauth : w.env.auth w.nAuth = AuthResult.ok d)
    (ht : (!jsTruthy d.access_token || !jsTruthy d.token_type) = false)
    (hdec : w.env.decode d.access_token = Except.ok c)
    (hmargin : 0 ≤ c.exp - c.iat - 30)
    (h : CtrlxCore.datalayerRead (fuel + 2) w s path data type = some out) :
    ∃ tail, out.w.events
      = w.events ++ [Event.delCall s.hostname s.tokenType s.token s.timeout,
          Event.authCall s.hostname s.username s.password s.timeout,
          Event.readCall s.hostname d.token_type d.access_token path data type s.timeout]
        ++ tail := by
  have hli := logIn_success w s d c hauth ht hdec hstate
  rw [show fuel + 2 = fuel + 1 + 1 from rfl, CtrlxCore.datalayerRead] at h
  dsimp only at h
  rw [if_neg (by simp [hstate]), if_pos hexp, hli] at h
  dsimp only at h
  obtain ⟨tail, htail⟩ := datalayerRead_delegates fuel _ _ path data type out rfl
    (by
      show ¬ w.env.now > w.env.now + (c.exp - c.iat - 30) * 1000
      have hn : (0 : Int) ≤ (c.exp - c.iat - 30) * 1000 :=
        mul_nonneg hmargin (by norm_num)
      linarith) h
  dsimp only at htail
  exact ⟨tail, by rw [htail]; simp⟩

/-- A `datalayerWrite` invoked while logged in and not past the watermark
delegates directly to the transport: whatever the transport answers, the
trace continues with the one `writeCall` carrying the current `tokenType`,
`token` and configured `timeout`, with no login before it. -/
theorem datalayerWrite_delegates (fuel : Nat) (w : World) (s : CtrlxCore)
    (path : String) (data : Value) (out : Res Value)
    (hstate : s.state = SessionState.LOGGED_IN)
    (hfresh : ¬ w.env.now > s.token_expireTime)
    (h : CtrlxCore.datalayerWrite (fuel + 1) w s path data = some out) :
    ∃ tail, out.w.events
      = w.events ++ [Event.writeCall s.hostname s.tokenType s.token path data s.timeout]
        ++ tail := by
  rw [CtrlxCore.datalayerWrite] at h
  dsimp only at h
  rw [if_neg (by simp [hstate]), if_neg hfresh] at h
  split at h
  · split at h
    · split at h
      · split at h
        · obtain ⟨t2, ht2⟩ := datalayerWrite_events_extend _ _ _ _ _ _ (by assumption)
          obtain ⟨t1, ht1⟩ := logIn_events_extend
            { w with
              nWrite := w.nWrite + 1
              events := w.events ++
                [Event.writeCall s.hostname s.tokenType s.token path data s.timeout] } s
          dsimp only at ht1
          cases h
          exact ⟨t1 ++ t2, by dsimp only; rw [ht2, ht1]; simp⟩
        · cases h
      · obtain ⟨t1, ht1⟩ := logIn_events_extend
          { w with
            nWrite := w.nWrite + 1
            events := w.events ++
              [Event.writeCall s.hostname s.tokenType s.token path data s.timeout] } s
        dsimp only at ht1
        cases h
        exact ⟨t1, by dsimp only; rw [ht1]⟩
    · cases h
      exact ⟨[], by simp⟩
  · cases h
    exact ⟨[], by simp⟩

/-- A `datalayerWrite` invoked while logged in but past the watermark,
under a successful re-login with a non-negative renewal margin: the trace
continues with the logout and authentication calls of the fresh login and
then the transport `writeCall` carrying the NEWLY issued token — whatever
the transport answers. -/
theorem datalayerWrite_expiry_trace (fuel : Nat) (w : World) (s : CtrlxCore)
    (path : String) (data : Value) (out : Res Value)
    (d : AuthData) (c : Claims)
    (hstate : s.state = SessionState.LOGGED_IN)
    (hexp : w.env.now > s.token_expireTime)
    (hauth : w.env.auth w.nAuth = AuthResult.ok d)
    (ht : (!jsTruthy d.access_token || !jsTruthy d.token_type) = false)
    (hdec : w.env.decode d.access_token = Except.ok c)
    (hmargin : 0 ≤ c.exp - c.iat - 30)
    (h : CtrlxCore.datalayerWrite (fuel + 2) w s path data = some out) :
    ∃ tail, out.w.events
      = w.events ++ [Event.delCall s.hostname s.tokenType s.token s.timeout,
          Event.authCall s.hostname s.username s.password s.timeout,
          Event.writeCall s.hostname d.token_type d.access_token path data s.timeout]
        ++ tail := by
  have hli := logIn_success w s d c hauth ht hdec hstate
  rw [show fuel + 2 = fuel + 1 + 1 from rfl, CtrlxCore.datalayerWrite] at h
  dsimp only at h
  rw [if_neg (by simp [hstate]), if_pos hexp, hli] at h
  dsimp only at h
  obtain ⟨tail, htail⟩ := datalayerWrite_delegates fuel _ _ path data out rfl
    (by
      show ¬ w.env.now > w.env.now + (c.exp - c.iat - 30) * 1000
      have hn : (0 : Int) ≤ (c.exp - c.iat - 30) * 1000 :=
        mul_nonneg hmargin (by norm_num)
      linarith) h
  dsimp only at htail
  exact ⟨tail, by rw [htail]; simp⟩

/-- A `datalayerCreate` invoked while logged in and not past the watermark
delegates directly to the transport: whatever the transport answers, the
trace continues with the one `createCall` carrying the current `tokenType`,
`token` and configured `timeout`, with no login before it. -/
theorem datalayerCreate_delegates (fuel : Nat) (w : World) (s : CtrlxCore)
    (path : String) (data : Value) (out : Res Value)
    (hstate : s.state = SessionState.LOGGED_IN)
    (hfresh : ¬ w.env.now > s.token_expireTime)
    (h : CtrlxCore.datalayerCreate (fuel + 1) w s path data = some out) :
    ∃ tail, out.w.events
      = w.events ++ [Event.createCall s.hostname s.tokenType s.token path data s.timeout]
        ++ tail := by
  rw [CtrlxCore.datalayerCreate] at h
  dsimp only at h
  rw [if_neg (by simp [hstate]), if_neg hfresh] at h
  split at h
  · split at h
    · split at h
      · split at h
        · obtain ⟨t2, ht2⟩ := datalayerCreate_events_extend _ _ _ _ _ _ (by assumption)
          obtain ⟨t1, ht1⟩ := logIn_events_extend
            { w with
              nCreate := w.nCreate + 1
              events := w.events ++
                [Event.createCall s.hostname s.tokenType s.token path data s.timeout] } s
          dsimp only at ht1
          cases h
          exact ⟨t1 ++ t2, by dsimp only; rw [ht2, ht1]; simp⟩
        · cases h
      · obtain ⟨t1, ht1⟩ := logIn_events_extend
          { w with
            nCreate := w.nCreate + 1
            events := w.events ++
              [Event.createCall s.hostname s.tokenType s.token path data s.timeout] } s
        dsimp only at ht1
        cases h
        exact ⟨t1, by dsimp only; rw [ht1]⟩
    · cases h
      exact ⟨[], by simp⟩
  · cases h
    exact ⟨[], by simp⟩

/-- A `datalayerCreate` invoked while logged in but past the watermark,
under a successful re-login with a non-negative renewal margin: the trace
continues with the logout and authentication calls of the fresh login and
then the transport `createCall` carrying the NEWLY issued token — whatever
the transport answers. -/
theorem datalayerCreate_expiry_trace (fuel : Nat) (w : World) (s : CtrlxCore)
    (path : String) (data : Value) (out : Res Value)
    (d : AuthData) (c : Claims)
    (hstate : s.state = SessionState.LOGGED_IN)
    (hexp : w.env.now > s.token_expireTime)
    (hauth : w.env.auth w.nAuth = AuthResult.ok d)
    (ht : (!jsTruthy d.access_token || !jsTruthy d.token_type) = false)
    (hdec : w.env.decode d.access_token = Except.ok c)
    (hmargin : 0 ≤ c.exp - c.iat - 30)
    (h : CtrlxCore.datalayerCreate (fuel + 2) w s path data = some out) :
    ∃ tail, out.w.events
      = w.events ++ [Event.delCall s.hostname s.tokenType s.token s.timeout,
          Event.authCall s.hostname s.username s.password s.timeout,
          Event.createCall s.hostname d.token_type d.access_token path data s.timeout]
        ++ tail := by
  have hli := logIn_success w s d c hauth ht hdec hstate
  rw [show fuel + 2 = fuel + 1 + 1 from rfl, CtrlxCore.datalayerCreate] at h
  dsimp only at h
  rw [if_neg (by simp [hstate]), if_pos hexp, hli] at h
  dsimp only at h
  obtain ⟨tail, htail⟩ := datalayerCreate_delegates fuel _ _ path data out rfl
    (by
      show ¬ w.env.now > w.env.now + (c.exp - c.iat - 30) * 1000
      have hn : (0 : Int) ≤ (c.exp - c.iat - 30) * 1000 :=
        mul_nonneg hmargin (by norm_num)
      linarith) h
  dsimp only at htail
  exact ⟨tail, by rw [htail]; simp⟩

/-- A `datalayerDelete` invoked while logged in and not past the watermark
delegates directly to the transport: whatever the transport answers, the
trace continues with the one `deleteCall` carrying the current `tokenType`,
`token` and configured `timeout`, with no login before it. -/
theorem datalayerDelete_delegates (fuel : Nat) (w : World) (s : CtrlxCore)
    (path : String) (out : Res Unit)
    (hstate : s.state = SessionState.LOGGED_IN)
    (hfresh : ¬ w.env.now > s.token_expireTime)
    (h : CtrlxCore.datalayerDelete (fuel + 1) w s path = some out) :
    ∃ tail, out.w.events
      = w.events ++ [Event.deleteCall s.hostname s.tokenType s.token path s.timeout]
        ++ tail := by
  rw [CtrlxCore.datalayerDelete] at h
  dsimp only at h
  rw [if_neg (by simp [hstate]), if_neg hfresh] at h
  split at h
  · split at h
    · split at h
      · split at h
        · obtain ⟨t2, ht2⟩ := datalayerDelete_events_extend _ _ _ _ _ (by assumption)
          obtain ⟨t1, ht1⟩ := logIn_events_extend
            { w with
              nDelete := w.nDelete + 1
              events := w.events ++
                [Event.deleteCall s.hostname s.tokenType s.token path s.timeout] } s
          dsimp only at ht1
          cases h
          exact ⟨t1 ++ t2, by dsimp only; rw [ht2, ht1]; simp⟩
        · cases h
      · obtain ⟨t1, ht1⟩ := logIn_events_extend
          { w with
            nDelete := w.nDelete + 1
            events := w.events ++
              [Event.deleteCall s.hostname s.tokenType s.token path s.timeout] } s
        dsimp only at ht1
        cases h
        exact ⟨t1, by dsimp only; rw [ht1]⟩
    · cases h
      exact ⟨[], by simp⟩
  · cases h
    exact ⟨[], by simp⟩

/-- A `datalayerDelete` invoked while logged in but past the watermark,
under a successful re-login with a non-negative renewal margin: the trace
continues with the logout and authentication calls of the fresh login and
then the transport `deleteCall` carrying the NEWLY issued token — whatever
the transport answers. -/
theorem datalayerDelete_expiry_trace (fuel : Nat) (w : World) (s : CtrlxCore)
    (path : String) (out : Res Unit)
    (d : AuthData) (c : Claims)
    (hstate : s.state = SessionState.LOGGED_IN)
    (hexp : w.env.now > s.token_expireTime)
    (hauth : w.env.auth w.nAuth = AuthResult.ok d)
    (ht : (!jsTruthy d.access_token || !jsTruthy d.token_type) = false)
    (hdec : w.env.decode d.access_token = Except.ok c)
    (hmargin : 0 ≤ c.exp - c.iat - 30)
    (h : CtrlxCore.datalayerDelete (fuel + 2) w s path = some out) :
    ∃ tail, out.w.events
      = w.events ++ [Event.delCall s.hostname s.tokenType s.token s.timeout,
          Event.authCall s.hostname s.username s.password s.timeout,
          Event.deleteCall s.hostname d.token_type d.access_token path s.timeout]
        ++ tail := by
  have hli := logIn_success w s d c hauth ht hdec hstate
  rw [show fuel + 2 = fuel + 1 + 1 from rfl, CtrlxCore.datalayerDelete] at h
  dsimp only at h
  rw [if_neg (by simp [hstate]), if_pos hexp, hli] at h
  dsimp only at h
  obtain ⟨tail, htail⟩ := datalayerDelete_delegates fuel _ _ path out rfl
    (by
      show ¬ w.env.now > w.env.now + (c.exp - c.iat - 30) * 1000
      have hn : (0 : Int) ≤ (c.exp - c.iat - 30) * 1000 :=
        mul_nonneg hmargin (by norm_num)
      linarith) h
  dsimp only at htail
  exact ⟨tail, by rw [htail]; simp⟩

/-- C6: for every data operation (read, write, create, delete) invoked
while `LOGGED_IN`: if `Date.now()` is not past the watermark, the
operation delegates directly to its transport collaborator attaching the
current `tokenType`, `token` and configured `timeout` — whatever the
transport answers, the recorded trace continues with exactly that
transport call and no login before it; if `Date.now()` is past the
watermark, a fresh login (logout + authenticate) runs before the
underlying transport call and that transport call carries the newly
issued token, not the stale one — again whatever the transport then
answers. The expired half assumes the fresh login succeeds and the
renewal margin is non-negative (the spec's own correctness
precondition). -/
theorem invoke_expiry_relogin (fuel : Nat) (w : World) (s : CtrlxCore)
    (path : String) (data : Value) (type : String) (d : AuthData) (c : Claims)
    (hstate : s.state = SessionState.LOGGED_IN) :
    (¬ w.env.now > s.token_expireTime →
      (∀ out : Res Value, CtrlxCore.datalayerRead (fuel + 1) w s path data type = some out →
        ∃ tail, out.w.events = w.events ++
          [Event.readCall s.hostname s.tokenType s.token path data type s.timeout] ++ tail) ∧
      (∀ out : Res Value, CtrlxCore.datalayerWrite (fuel + 1) w s path data = some out →
        ∃ tail, out.w.events = w.events ++
          [Event.writeCall s.hostname s.tokenType s.token path data s.timeout] ++ tail) ∧
      (∀ out : Res Value, CtrlxCore.datalayerCreate (fuel + 1) w s path data = some out →
        ∃ tail, out.w.events = w.events ++
          [Event.createCall s.hostname s.tokenType s.token path data s.timeout] ++ tail) ∧
      (∀ out : Res Unit, CtrlxCore.datalayerDelete (fuel + 1) w s path = some out →
        ∃ tail, out.w.events = w.events ++
          [Event.deleteCall s.hostname s.tokenType s.token path s.timeout] ++ tail)) ∧
    (w.env.now > s.token_expireTime →
      w.env.auth w.nAuth = AuthResult.ok d →
      (!jsTruthy d.access_token || !jsTruthy d.token_type) = false →
      w.env.decode d.access_token = Except.ok c →
      0 ≤ c.exp - c.iat - 30 →
      (∀ out : Res Value, CtrlxCore.datalayerRead (fuel + 2) w s path data type = some out →
        ∃ tail, out.w.events = w.events ++
          [Event.delCall s.hostname s.tokenType s.token s.timeout,
           Event.authCall s.hostname s.username s.password s.timeout,
           Event.readCall s.hostname d.token_type d.access_token path data type s.timeout]
          ++ tail) ∧
      (∀ out : Res Value, CtrlxCore.datalayerWrite (fuel + 2) w s path data = some out →
        ∃ tail, out.w.events = w.events ++
          [Event.delCall s.hostname s.tokenType s.token s.timeout,
           Event.authCall s.hostname s.username s.password s.timeout,
           Event.writeCall s.hostname d.token_type d.access_token path data s.timeout]
          ++ tail) ∧
      (∀ out : Res Value, CtrlxCore.datalayerCreate (fuel + 2) w s path data = some out →
        ∃ tail, out.w.events = w.events ++
          [Event.delCall s.hostname s.tokenType s.token s.timeout,
           Event.authCall s.hostname s.username s.password s.timeout,
           Event.createCall s.hostname d.token_type d.access_token path data s.timeout]
          ++ tail) ∧
      (∀ out : Res Unit, CtrlxCore.datalayerDelete (fuel + 2) w s path = some out →
        ∃ tail, out.w.events = w.events ++
          [Event.delCall s.hostname s.tokenType s.token s.timeout,
           Event.authCall s.hostname s.username s.password s.timeout,
           Event.deleteCall s.hostname d.token_type d.access_token path s.timeout]
          ++ tail)) := by
  constructor
  · intro hfresh
    exact ⟨fun out h => datalayerRead_delegates fuel w s path data type out hstate hfresh h,
      fun out h => datalayerWrite_delegates fuel w s path data out hstate hfresh h,
      fun out h => datalayerCreate_delegates fuel w s path data out hstate hfresh h,
      fun out h => datalayerDelete_delegates fuel w s path out hstate hfresh h⟩
  · intro hexp hauth ht hdec hmargin
    exact ⟨fun out h =>
        datalayerRead_expiry_trace fuel w s path data type out d c hstate hexp hauth ht
          hdec hmargin h,
      fun out h =>
        datalayerWrite_expiry_trace fuel w s path data out d c hstate hexp hauth ht
          hdec hmargin h,
      fun out h =>
        datalayerCreate_expiry_trace fuel w s path data out d c hstate hexp hauth ht
          hdec hmargin h,
      fun out h =>
        datalayerDelete_expiry_trace fuel w s path out d c hstate hexp hauth ht
          hdec hmargin h⟩

/-- The concrete expired-read run of the C6 witness. -/
def c6Out : Res Value :=
  (CtrlxCore.datalayerRead 2 { env := c6Env } sExpired "a/b" Value.undefined "data").getD
    ⟨{ env := c6Env }, sExpired, Except.ok Value.undefined⟩

/-- Witness for C6: past the watermark, the run's trace starts with the
logout and authentication of the fresh login followed by the transport
read carrying the newly issued token `"newtok"`, not the stale
`"oldtok"`. -/
theorem invoke_expiry_relogin_witness :
    ∃ tail, c6Out.w.events
      = [Event.delCall "h" (Value.str "Bearer") (Value.str "oldtok") (-1),
         Event.authCall "h" "u" "p" (-1),
         Event.readCall "h" (Value.str "Bearer") (Value.str "newtok") "a/b"
           Value.undefined "data" (-1)] ++ tail :=
  ((invoke_expiry_relogin 0 { env := c6Env } sExpired "a/b" Value.undefined "data"
      ⟨Value.str "newtok", Value.str "Bearer"⟩ ⟨0, 3600⟩ rfl).2
    (by norm_num [c6Env, sExpired, trivEnv]) rfl rfl rfl (by norm_num)).1 c6Out rfl
